import Mathlib

/-!
Verification of the reconnectable-transport / session layer of the
code-server fork of VS Code (`lpetek/vscode`).

Shallow embedding of:
* `ServerProtocol.handshake` / `ServerProtocol.destroy` (`vs/server/protocol.ts`)
* `AbstractConnection.dispose` / `reconnect` (`vs/server/connection/abstractConnection.ts`)
* `ManagementConnection.doReconnect` (`vs/server/connection/managementConnection.ts`)
* `ExtensionHostConnection._onExtHostProcessExit` (`vs/server/connection/extensionHostConnection.ts`)
* `ServerWebSocket` / `ServerSocket` (`vs/platform/remote/node/serverSocket.ts`)
* `FileProviderChannel` (`vs/server/ipc/fileProviderIpc.ts`) and
  `TerminalProviderChannel` (terminal provider channel file) dispatch
* the two-phase socket swap of `PersistentProtocol`
  (`vs/base/parts/ipc/common/ipc.net`, modelled from the spec because the
  file is not part of the extracted sources).
-/

namespace VscodeServer

/-! ## Control messages (`HandshakeMessage` shapes of `remoteAgentConnection`) -/

/-- A JSON control message sent over the control channel
(`ServerProtocol.sendMessage` serializes these). -/
inductive CtrlMsg where
  /-- Message `{type: 'sign', data: ''}` — the authentication challenge. -/
  | sign : CtrlMsg
  /-- Message `{type: 'ok'}` — session (re)established acknowledgement. -/
  | ok : CtrlMsg
  /-- Message `{type: 'error', reason}` — forced-teardown notification. -/
  | errorMsg (reason : String) : CtrlMsg
  /-- the disconnect signal written by `sendDisconnect`. -/
  | disconnectMsg : CtrlMsg
  /-- Message `{type: 'debug', debugPort?}` — extension-host sessions only. -/
  | debugMsg (port : Option Nat) : CtrlMsg
  deriving DecidableEq, Repr

/-! ## Handshake state machine (`ServerProtocol.handshake`)

`handshake()` registers three pieces of listener state: the control-message
handler (`this.onControlMessage(...)`), the socket-close listener
(`this.onSocketClose(...)`) and a `setTimeout` timer
(`HANDSHAKE_TIMEOUT_DURATION = 10000`). `cleanup()` disposes all three.
The machine below processes the interleaved events that can reach the
handshake: an incoming control message, the socket closing, or the timer
firing. The result of `JSON.parse` + the `switch` on `message.type` is
abstracted into `HsMsg`. -/

/-- The outcome of parsing a raw control message in the handshake handler. -/
inductive HsMsg where
  /-- Message `{type: 'auth', ...}` — triggers `this.authenticate(message)`. -/
  | auth : HsMsg
  /-- Message `{type: 'connectionType', ...}` carrying the connection request
  (abstracted to an opaque payload). -/
  | connectionType (req : Nat) : HsMsg
  /-- a message that parses but has an unrecognized `type` field
  (the `default:` branch throws `Unrecognized message type`). -/
  | unrecognized : HsMsg
  /-- a raw message on which `JSON.parse` throws. -/
  | parseFailure : HsMsg
  deriving DecidableEq, Repr

/-- An event that can reach the pending handshake. -/
inductive HsEvent where
  | ctrl (m : HsMsg) : HsEvent
  | socketClose : HsEvent
  | timerFire : HsEvent
  deriving DecidableEq, Repr

/-- Settlement state of the handshake promise. -/
inductive HsOutcome where
  | pending : HsOutcome
  /-- Call of `resolve(message)` with the `connectionType` request. -/
  | resolved (req : Nat) : HsOutcome
  /-- Call of `reject(new Error('Protocol handshake timed out'))`. -/
  | rejectedTimeout : HsOutcome
  /-- Call of `reject(new Error('Protocol socket closed unexpectedly'))`. -/
  | rejectedSocketClosed : HsOutcome
  /-- Call of `reject(error)` from the `catch` around the message handler. -/
  | rejectedMalformed : HsOutcome
  deriving DecidableEq, Repr

/-- Listener state plus promise state of one `handshake()` invocation.
`sent` records the control messages written by the server during the
handshake (the `sign` challenges of `authenticate`). -/
structure HsState where
  outcome : HsOutcome
  /-- the `onControlMessage` subscription is live. -/
  handlerActive : Bool
  /-- the `onSocketClose` subscription is live. -/
  closeActive : Bool
  /-- the `setTimeout` timer is armed. -/
  timerActive : Bool
  sent : List CtrlMsg
  deriving DecidableEq, Repr

/-- Function `cleanup()`: `handler.dispose(); onClose.dispose(); clearTimeout(timeout)`. -/
def hsCleanup (s : HsState) : HsState :=
  { s with handlerActive := false, closeActive := false, timerActive := false }

/-- State right after `handshake()` is entered: all three listeners are
registered and the trailing `this.authenticate()` call has sent one
`sign` challenge. -/
def hsInit : HsState :=
  { outcome := .pending, handlerActive := true, closeActive := true,
    timerActive := true, sent := [CtrlMsg.sign] }

/-- One event arriving at the handshake. An event on a disposed
subscription (or a cleared timer) is dropped, exactly as disposing the
emitter subscription / `clearTimeout` drops it. -/
def hsStep (s : HsState) : HsEvent → HsState
  | .ctrl m =>
    if s.handlerActive then
      match m with
      | .auth => { s with sent := s.sent ++ [CtrlMsg.sign] }
      | .connectionType req => { hsCleanup s with outcome := .resolved req }
      | .unrecognized => { hsCleanup s with outcome := .rejectedMalformed }
      | .parseFailure => { hsCleanup s with outcome := .rejectedMalformed }
    else s
  | .socketClose =>
    if s.closeActive then { hsCleanup s with outcome := .rejectedSocketClosed }
    else s
  | .timerFire =>
    if s.timerActive then { hsCleanup s with outcome := .rejectedTimeout }
    else s

/-- Run the handshake over a sequence of events from its initial state. -/
def hsRun (events : List HsEvent) : HsState :=
  events.foldl hsStep hsInit

/-- All listener state of the handshake has been torn down
(the baseline before `handshake()` registered anything). -/
def hsAtBaseline (s : HsState) : Prop :=
  s.handlerActive = false ∧ s.closeActive = false ∧ s.timerActive = false

instance (s : HsState) : Decidable (hsAtBaseline s) := by
  unfold hsAtBaseline; infer_instance

/-- While only `auth` messages arrive, the handshake stays pending with
all listeners live (each `auth` just re-sends a challenge). -/
lemma hsRun_auth_only (pre : List HsEvent)
    (hpre : ∀ e ∈ pre, e = HsEvent.ctrl HsMsg.auth) :
    (hsRun pre).outcome = HsOutcome.pending ∧
    (hsRun pre).handlerActive = true ∧
    (hsRun pre).closeActive = true ∧
    (hsRun pre).timerActive = true := by
  induction pre using List.reverseRecOn with
  | nil => simp [hsRun, hsInit]
  | append_singleton xs x ih =>
    have hx : x = HsEvent.ctrl HsMsg.auth := hpre x (by simp)
    have hxs : ∀ e ∈ xs, e = HsEvent.ctrl HsMsg.auth := by
      intro e he; exact hpre e (by simp [he])
    obtain ⟨h1, h2, h3, h4⟩ := ih hxs
    subst hx
    simp [hsRun, List.foldl_append] at *
    simp [hsStep, h1, h2, h3, h4]

/-- Once `cleanup()` has run, every further event is a no-op: the control
handler and close listener are disposed and the timer is cleared, so the
settled state never changes again. -/
lemma hsStep_after_cleanup (s : HsState) (e : HsEvent)
    (h1 : s.handlerActive = false) (h2 : s.closeActive = false)
    (h3 : s.timerActive = false) : hsStep s e = s := by
  cases e with
  | ctrl m => simp [hsStep, h1]
  | socketClose => simp [hsStep, h2]
  | timerFire => simp [hsStep, h3]

/-- C3: if the handshake receives no `connectionType` control message
before the 10-second handshake timer fires (the socket stays open and
only sends `auth` traffic, which merely re-challenges), then the
handshake promise rejects with the timeout error
(`Protocol handshake timed out`), the handshake never resolves with a
connection request (so no session can be created from it), and the
control-message handler, the socket-close listener and the timer are all
removed — listener state is back at its pre-handshake baseline. -/
theorem handshake_timeout_rejects_and_cleans_up
    (pre : List HsEvent)
    (hpre : ∀ e ∈ pre, e = HsEvent.ctrl HsMsg.auth) :
    (hsRun (pre ++ [HsEvent.timerFire])).outcome = HsOutcome.rejectedTimeout ∧
    (∀ req, (hsRun (pre ++ [HsEvent.timerFire])).outcome ≠ HsOutcome.resolved req) ∧
    hsAtBaseline (hsRun (pre ++ [HsEvent.timerFire])) := by
  obtain ⟨h1, h2, h3, h4⟩ := hsRun_auth_only pre hpre
  have hrun : hsRun (pre ++ [HsEvent.timerFire])
      = hsStep (hsRun pre) HsEvent.timerFire := by
    simp [hsRun, List.foldl_append]
  rw [hrun]
  simp [hsStep, h4, hsCleanup, hsAtBaseline]

/-- Witness for `handshake_timeout_rejects_and_cleans_up`: a client that
sends two `auth` messages and nothing else until the timer fires. -/
theorem handshake_timeout_rejects_and_cleans_up_witness :
    (hsRun ([HsEvent.ctrl HsMsg.auth, HsEvent.ctrl HsMsg.auth]
        ++ [HsEvent.timerFire])).outcome = HsOutcome.rejectedTimeout ∧
    (∀ req, (hsRun ([HsEvent.ctrl HsMsg.auth, HsEvent.ctrl HsMsg.auth]
        ++ [HsEvent.timerFire])).outcome ≠ HsOutcome.resolved req) ∧
    hsAtBaseline (hsRun ([HsEvent.ctrl HsMsg.auth, HsEvent.ctrl HsMsg.auth]
        ++ [HsEvent.timerFire])) :=
  handshake_timeout_rejects_and_cleans_up
    [HsEvent.ctrl HsMsg.auth, HsEvent.ctrl HsMsg.auth] (by decide)

/-- C4: while the handshake is live (handler, close listener and timer all
registered), exactly the two message types `auth` and `connectionType`
are accepted: an `auth` message re-sends the `sign` challenge and leaves
the handshake pending with all listeners live; a `connectionType` message
resolves the handshake with the connection request after cleaning up all
listeners; any other message type, and any message that fails to parse,
rejects the promise as malformed with the timer cleared and both
listeners disposed. The cleanup happens exactly once: once the listeners
are down, every further event (message, close, or timer) is a no-op. -/
theorem handshake_accepts_exactly_auth_then_connectionType
    (s : HsState) (hh : s.handlerActive = true) (hc : s.closeActive = true)
    (ht : s.timerActive = true) :
    (hsStep s (HsEvent.ctrl HsMsg.auth)
        = { s with sent := s.sent ++ [CtrlMsg.sign] }) ∧
    (∀ req, hsStep s (HsEvent.ctrl (HsMsg.connectionType req))
        = { hsCleanup s with outcome := HsOutcome.resolved req }) ∧
    (hsStep s (HsEvent.ctrl HsMsg.unrecognized)
        = { hsCleanup s with outcome := HsOutcome.rejectedMalformed }) ∧
    (hsStep s (HsEvent.ctrl HsMsg.parseFailure)
        = { hsCleanup s with outcome := HsOutcome.rejectedMalformed }) ∧
    (∀ s' : HsState, hsAtBaseline s' → ∀ e, hsStep s' e = s') := by
  refine ⟨by simp [hsStep, hh], fun req => by simp [hsStep, hh],
    by simp [hsStep, hh], by simp [hsStep, hh], ?_⟩
  intro s' hs' e
  exact hsStep_after_cleanup s' e hs'.1 hs'.2.1 hs'.2.2

/-- Witness for `handshake_accepts_exactly_auth_then_connectionType`,
instantiated at the initial handshake state. -/
theorem handshake_accepts_exactly_auth_then_connectionType_witness :
    hsStep hsInit (HsEvent.ctrl HsMsg.auth)
      = { hsInit with sent := hsInit.sent ++ [CtrlMsg.sign] } ∧
    hsStep hsInit (HsEvent.ctrl (HsMsg.connectionType 7))
      = { hsCleanup hsInit with outcome := HsOutcome.resolved 7 } :=
  ⟨(handshake_accepts_exactly_auth_then_connectionType hsInit
      (by decide) (by decide) (by decide)).1,
   (handshake_accepts_exactly_auth_then_connectionType hsInit
      (by decide) (by decide) (by decide)).2.1 7⟩

/-! ## Connection lifecycle (`AbstractConnection`)

`dispose(reason?)` logs, and only when `this.disposed` is still false it
sets the flag, runs the specialization `doDispose()` and fires the
`_onClose` emitter. The model counts `doDispose` invocations and close
event firings. -/

/-- Observable lifecycle state of one `AbstractConnection`. -/
structure ConnLifecycle where
  /-- the private `disposed` flag. -/
  disposed : Bool
  /-- how many times the specialization `doDispose()` has run. -/
  doDisposeCalls : Nat
  /-- how many times the `_onClose` emitter has fired. -/
  closeFires : Nat
  deriving DecidableEq, Repr

/-- A freshly constructed connection. -/
def connInit : ConnLifecycle := { disposed := false, doDisposeCalls := 0, closeFires := 0 }

/-- Method `AbstractConnection.dispose`: guarded by the `disposed` flag. -/
def AbstractConnection.dispose (c : ConnLifecycle) : ConnLifecycle :=
  if c.disposed then c
  else { disposed := true, doDisposeCalls := c.doDisposeCalls + 1,
         closeFires := c.closeFires + 1 }

/-- C6: `dispose()` is idempotent — on a fresh session, calling it twice
runs `doDispose` and fires the close event exactly once, and the second
call is a no-op (it returns the state unchanged, hence does not throw). -/
theorem dispose_idempotent :
    (∀ c : ConnLifecycle,
      AbstractConnection.dispose (AbstractConnection.dispose c)
        = AbstractConnection.dispose c) ∧
    (AbstractConnection.dispose (AbstractConnection.dispose connInit)).doDisposeCalls = 1 ∧
    (AbstractConnection.dispose (AbstractConnection.dispose connInit)).closeFires = 1 := by
  refine ⟨fun c => ?_, by decide, by decide⟩
  by_cases h : c.disposed <;> simp [AbstractConnection.dispose, h]

/-! ## Action traces of protocol objects

`ManagementConnection.doReconnect` and `ServerProtocol.destroy` are
sequences of effectful calls on protocol and socket objects. The model
records each primitive call as an `Act` and each method as the exact
trace of acts it performs, in order. Protocol objects and sockets are
identified by opaque ids. -/

/-- One primitive effect on a protocol/socket object. -/
inductive Act where
  /-- Call `proto.sendMessage(m)` (a control-channel write). -/
  | sendCtrl (proto : Nat) (m : CtrlMsg) : Act
  /-- Call `proto.beginAcceptReconnection(sock, buffered)`. -/
  | beginAccept (proto : Nat) (sock : Nat) (buffered : List Nat) : Act
  /-- Call `proto.endAcceptReconnection()`. -/
  | endAccept (proto : Nat) : Act
  /-- Call `proto.dispose()` (protocol object only, not its socket). -/
  | disposeProto (proto : Nat) : Act
  /-- Call `socket.dispose()` (destroys the underlying socket). -/
  | disposeSock (sock : Nat) : Act
  /-- Call `logger.warn(...)` in a catch handler. -/
  | warnLogged : Act
  deriving DecidableEq, Repr

/-- The view of a `ServerProtocol` object needed by reconnection: its
identity, the socket it currently holds (`getSocket()`), and its
buffered-but-undelivered bytes (`readEntireBuffer()` drains all of
them). -/
structure ProtoObj where
  id : Nat
  sock : Nat
  buffered : List Nat
  deriving DecidableEq, Repr

/-- The `ManagementConnection` state: the retained protocol plus the
`AbstractConnection` offline timestamp. -/
structure MgmtConn where
  retainedProto : Nat
  offline : Option Nat
  deriving DecidableEq, Repr

/-- Method `ManagementConnection.doReconnect(protocol)`:
`protocol.sendMessage({type:'ok'})`, then
`this.protocol.beginAcceptReconnection(protocol.getSocket(), protocol.readEntireBuffer())`,
then `this.protocol.endAcceptReconnection()`, then `protocol.dispose()`. -/
def ManagementConnection.doReconnect (c : MgmtConn) (newP : ProtoObj) : List Act :=
  [Act.sendCtrl newP.id CtrlMsg.ok,
   Act.beginAccept c.retainedProto newP.sock newP.buffered,
   Act.endAccept c.retainedProto,
   Act.disposeProto newP.id]

/-- Method `AbstractConnection.reconnect(protocol)`: clears `_offline` and then
delegates to `doReconnect(protocol)`; returns the updated connection
state and the trace of acts performed. -/
def AbstractConnection.reconnect (c : MgmtConn) (newP : ProtoObj) :
    MgmtConn × List Act :=
  let c' : MgmtConn := { c with offline := none }
  (c', ManagementConnection.doReconnect c' newP)

/-- C7: `reconnect(newProtocol)` on a management session clears
`offline`, and performs, in order: the `{type:'ok'}` acknowledgement on
the new protocol, `beginAcceptReconnection` on the retained protocol with
the new protocol's socket and its entire buffered bytes,
`endAcceptReconnection` on the retained protocol, and finally
`dispose()` of the superseded new-protocol object; the socket that was
swapped in is never disposed. -/
theorem management_reconnect_trace (c : MgmtConn) (newP : ProtoObj) :
    (AbstractConnection.reconnect c newP).1.offline = none ∧
    (AbstractConnection.reconnect c newP).1.retainedProto = c.retainedProto ∧
    (AbstractConnection.reconnect c newP).2
      = [Act.sendCtrl newP.id CtrlMsg.ok,
         Act.beginAccept c.retainedProto newP.sock newP.buffered,
         Act.endAccept c.retainedProto,
         Act.disposeProto newP.id] ∧
    Act.disposeSock newP.sock ∉ (AbstractConnection.reconnect c newP).2 := by
  refine ⟨rfl, rfl, rfl, ?_⟩
  simp [AbstractConnection.reconnect, ManagementConnection.doReconnect]

/-! ## `ServerProtocol.destroy`

```
try {
  if (reason) { this.sendMessage({ type: 'error', reason }); }
  this.sendDisconnect();
} catch (error) { this.logger.warn(...); }
this.dispose();
this.getSocket().dispose();
```

A control-channel write may throw when the socket is already gone; the
two writes get independent success flags. A failed write delivers
nothing and aborts the rest of the `try` block. -/

/-- The trace of `ServerProtocol.destroy(reason?)` on protocol `pid`
holding socket `sock`, where `okErrWrite` / `okDiscWrite` say whether the
error-message write and the disconnect write would succeed. -/
def ServerProtocol.destroy (pid sock : Nat) (reason : Option String)
    (okErrWrite okDiscWrite : Bool) : List Act :=
  let step1 : List Act × Bool :=
    match reason with
    | some r => if okErrWrite then ([Act.sendCtrl pid (CtrlMsg.errorMsg r)], false)
                else ([], true)
    | none => ([], false)
  let step2 : List Act × Bool :=
    if step1.2 then step1
    else if okDiscWrite then (step1.1 ++ [Act.sendCtrl pid CtrlMsg.disconnectMsg], false)
    else (step1.1, true)
  step2.1 ++ (if step2.2 then [Act.warnLogged] else []) ++
    [Act.disposeProto pid, Act.disposeSock sock]

/-- C8: `destroy(reason?)` sends the error control message (when a reason
is given), then the disconnect control message, then disposes the
protocol, then disposes the socket, in that order; when a write fails the
failure is caught and logged (a `warn` act appears in the trace instead
of the unsent messages) and teardown still completes — in every case the
trace ends with `disposeProto` then `disposeSock`, i.e. nothing is thrown
to the caller. All four write-outcome cases are enumerated. -/
theorem destroy_order_and_catch (pid sock : Nat) (r : String) :
    ServerProtocol.destroy pid sock (some r) true true
      = [Act.sendCtrl pid (CtrlMsg.errorMsg r),
         Act.sendCtrl pid CtrlMsg.disconnectMsg,
         Act.disposeProto pid, Act.disposeSock sock] ∧
    ServerProtocol.destroy pid sock none true true
      = [Act.sendCtrl pid CtrlMsg.disconnectMsg,
         Act.disposeProto pid, Act.disposeSock sock] ∧
    (∀ b, ServerProtocol.destroy pid sock (some r) false b
      = [Act.warnLogged, Act.disposeProto pid, Act.disposeSock sock]) ∧
    ServerProtocol.destroy pid sock (some r) true false
      = [Act.sendCtrl pid (CtrlMsg.errorMsg r), Act.warnLogged,
         Act.disposeProto pid, Act.disposeSock sock] ∧
    (∀ b, ServerProtocol.destroy pid sock none b false
      = [Act.warnLogged, Act.disposeProto pid, Act.disposeSock sock]) := by
  refine ⟨rfl, rfl, fun b => ?_, rfl, fun b => ?_⟩ <;>
    cases b <;> rfl

/-! ## Extension-host child exit (`ExtensionHostConnection._onExtHostProcessExit`)

```
private _onExtHostProcessExit(code: number, signal: string): void {
  this.dispose();
  if (code !== 0 && signal !== 'SIGTERM') {
    this.logService.error(`... exited with code: ${code} and signal: ${signal}.`);
  }
  if (this._terminating) { return; }
  this._onExit.fire([code, signal]);
}
```

The observable result is whether an error-level log line was produced and
whether (and with what payload) the `_onExit` event fired. A `null`
signal is modelled as `none`. -/

/-- What one child-exit notification produced. -/
structure ExitReport where
  /-- the connection was disposed (always happens first). -/
  sessionDisposed : Bool
  /-- True when `logService.error(...)` ran. -/
  errorLogged : Bool
  /-- the payload `_onExit.fire([code, signal])` fired with, if it fired. -/
  exitFired : Option (Int × Option String)
  deriving DecidableEq, Repr

/-- Method `_onExtHostProcessExit(code, signal)` with the current `_terminating`
flag. -/
def ExtensionHostConnection.onExtHostProcessExit (terminating : Bool)
    (code : Int) (signal : Option String) : ExitReport :=
  { sessionDisposed := true
    errorLogged := if code ≠ 0 ∧ signal ≠ some "SIGTERM" then true else false
    exitFired := if terminating then none else some (code, signal) }

/-- C2 counterexample: for exit code 1, signal `null`, with
`terminating = true`, the claim predicts no error-level log and an exit
event `[1, null]`; the code does the opposite on both counts — it still
logs at error level (the log guard tests only `code`/`signal`, not
`terminating`) and it suppresses the exit event (`return` before
`_onExit.fire`). -/
theorem exthost_exit_terminating_counterexample :
    ¬ ((ExtensionHostConnection.onExtHostProcessExit true 1 none).errorLogged = false ∧
       (ExtensionHostConnection.onExtHostProcessExit true 1 none).exitFired
         = some (1, none)) := by
  decide

/-- C2 (amended): exit with code 1, signal `null`, `terminating = false`
logs at error level and fires the exit event with `[1, null]`; the same
exit with `terminating = true` still logs at error level but fires no
exit event (the flag suppresses event propagation, not the log). -/
theorem exthost_exit_behaviour :
    ExtensionHostConnection.onExtHostProcessExit false 1 none
      = { sessionDisposed := true, errorLogged := true,
          exitFired := some (1, none) } ∧
    ExtensionHostConnection.onExtHostProcessExit true 1 none
      = { sessionDisposed := true, errorLogged := true, exitFired := none } := by
  decide

/-! ## Channel dispatch (C5)

`FileProviderChannel` (fileProviderIpc.ts) and the pty-service-backed
`TerminalProviderChannel`. The latter resolves commands/events against
the pty service dynamically (`findEventHandler` / `findEvent`), so the
set of pty handler and event names is a parameter. -/

/-- Result of a channel `call`. -/
inductive CallOutcome where
  /-- the command dispatched to an implementation. -/
  | handled : CallOutcome
  /-- Outcome `throw new Error(\x60Invalid call ...\x60)` naming the command. -/
  | thrownInvalidCall (command : String) : CallOutcome
  deriving DecidableEq, Repr

/-- Result of a channel `listen`. -/
inductive ListenOutcome where
  /-- a real event was returned. -/
  | eventReturned : ListenOutcome
  /-- Outcome where `Event.None` was returned (a subscription that never fires). -/
  | eventNoneReturned : ListenOutcome
  /-- Outcome `throw new Error(\x60Invalid listen ...\x60)` naming the event. -/
  | thrownInvalidListen (evName : String) : ListenOutcome
  deriving DecidableEq, Repr

/-- The commands of `FileProviderChannel.call`'s `switch`. -/
def fileProviderCommands : List String :=
  ["stat", "open", "close", "read", "readFile", "write", "writeFile",
   "delete", "mkdir", "readdir", "rename", "copy", "watch", "unwatch"]

/-- Method `FileProviderChannel.call`: switch over the known commands, else
`throw new Error(\x60Invalid call '${command}'\x60)`. -/
def FileProviderChannel.call (command : String) : CallOutcome :=
  if command ∈ fileProviderCommands then CallOutcome.handled
  else CallOutcome.thrownInvalidCall command

/-- Method `FileProviderChannel.listen`: `filechange` and `readFileStream` are
known, else `throw new Error(\x60Invalid listen '${event}'\x60)`. -/
def FileProviderChannel.listen (evName : String) : ListenOutcome :=
  if evName = "filechange" ∨ evName = "readFileStream" then
    ListenOutcome.eventReturned
  else ListenOutcome.thrownInvalidListen evName

/-- Method `TerminalProviderChannel.call` (pty-service-backed channel):
`$createProcess` and `$sendCommandResult` are handled inline; any other
command is looked up with `findEventHandler(this.ptyService, command)`
and, when absent, `throw new Error(\x60Invalid call '${command}'\x60)`.
`ptyHandlers` is the set of handler names the pty service exposes. -/
def TerminalProviderChannel.call (ptyHandlers : List String)
    (command : String) : CallOutcome :=
  if command = "$createProcess" then CallOutcome.handled
  else if command = "$sendCommandResult" then CallOutcome.handled
  else if command ∈ ptyHandlers then CallOutcome.handled
  else CallOutcome.thrownInvalidCall command

/-- Method `TerminalProviderChannel.listen`: `$onExecuteCommand` is handled
inline; any other event is looked up with
`findEvent(this.ptyService, eventName)` and, when absent, the channel
logs a warning and returns `Event.None` — it does not throw. -/
def TerminalProviderChannel.listen (ptyEvents : List String)
    (evName : String) : ListenOutcome :=
  if evName = "$onExecuteCommand" then ListenOutcome.eventReturned
  else if evName ∈ ptyEvents then ListenOutcome.eventReturned
  else ListenOutcome.eventNoneReturned

/-- C5 counterexample: a listen on the terminal provider channel with an
event name its handler does not implement does not fail with an
"invalid event" error — it silently returns `Event.None`, which a client
cannot distinguish from a real subscription that never fires. -/
theorem terminal_listen_unknown_counterexample :
    TerminalProviderChannel.listen [] "$someUnknownEvent"
      = ListenOutcome.eventNoneReturned ∧
    TerminalProviderChannel.listen [] "$someUnknownEvent"
      ≠ ListenOutcome.thrownInvalidListen "$someUnknownEvent" := by
  decide

/-- C5 (amended): unknown command names fail with a distinguishable
`Invalid call` error naming the command on both channels, and an unknown
listen on `FileProviderChannel` throws an `Invalid listen` error naming
the event; but an unknown listen on the terminal provider channel is a
silent no-op — it returns `Event.None` (after a warning-level log), not
an error. -/
theorem channel_unknown_dispatch (ptyHandlers ptyEvents : List String)
    (cmd ev : String)
    (hcmdF : cmd ∉ fileProviderCommands)
    (hcmdT1 : cmd ≠ "$createProcess") (hcmdT2 : cmd ≠ "$sendCommandResult")
    (hcmdT3 : cmd ∉ ptyHandlers)
    (hevF1 : ev ≠ "filechange") (hevF2 : ev ≠ "readFileStream")
    (hevT1 : ev ≠ "$onExecuteCommand") (hevT2 : ev ∉ ptyEvents) :
    FileProviderChannel.call cmd = CallOutcome.thrownInvalidCall cmd ∧
    TerminalProviderChannel.call ptyHandlers cmd
      = CallOutcome.thrownInvalidCall cmd ∧
    FileProviderChannel.listen ev = ListenOutcome.thrownInvalidListen ev ∧
    TerminalProviderChannel.listen ptyEvents ev
      = ListenOutcome.eventNoneReturned := by
  refine ⟨?_, ?_, ?_, ?_⟩
  · simp [FileProviderChannel.call, hcmdF]
  · simp [TerminalProviderChannel.call, hcmdT1, hcmdT2, hcmdT3]
  · simp [FileProviderChannel.listen, hevF1, hevF2]
  · simp [TerminalProviderChannel.listen, hevT1, hevT2]

/-- Witness for `channel_unknown_dispatch` at a concrete unknown command
and event name. -/
theorem channel_unknown_dispatch_witness :
    FileProviderChannel.call "$bogusCommand"
      = CallOutcome.thrownInvalidCall "$bogusCommand" ∧
    TerminalProviderChannel.call ["$input"] "$bogusCommand"
      = CallOutcome.thrownInvalidCall "$bogusCommand" ∧
    FileProviderChannel.listen "bogusEvent"
      = ListenOutcome.thrownInvalidListen "bogusEvent" ∧
    TerminalProviderChannel.listen ["$onProcessDataEvent"] "bogusEvent"
      = ListenOutcome.eventNoneReturned :=
  channel_unknown_dispatch ["$input"] ["$onProcessDataEvent"]
    "$bogusCommand" "bogusEvent" (by decide) (by decide) (by decide)
    (by decide) (by decide) (by decide) (by decide) (by decide)

/-! ## Wire socket adapter (`serverSocket.ts`)

`ServerWebSocket` keeps a private `_isClosed` flag: its own `close()`
sets it (and closes/unhooks the underlying `ws`), and the listener it
installs on the underlying WebSocket's `close` event sets it too.
`send(data)` refuses to write when `_isClosed` is set and returns
without doing anything. -/

/-- Observable state of one `ServerWebSocket`. -/
structure WsState where
  /-- the private `_isClosed` flag. -/
  isClosed : Bool
  /-- the data chunks handed to the underlying `this.ws.send`. -/
  wsSent : List (List Nat)
  /-- how many times `this.ws.close()` was invoked. -/
  wsCloseCalls : Nat
  deriving DecidableEq, Repr

/-- Method `ServerWebSocket.send(data)`: refuses to write once closed. -/
def ServerWebSocket.send (d : List Nat) (s : WsState) : WsState :=
  if s.isClosed then s
  else { s with wsSent := s.wsSent ++ [d] }

/-- Method `ServerWebSocket.close()`: sets `_isClosed`, closes the
underlying socket and removes its listeners. -/
def ServerWebSocket.close (s : WsState) : WsState :=
  { s with isClosed := true, wsCloseCalls := s.wsCloseCalls + 1 }

/-- The `close`-event listener installed on the underlying WebSocket:
its first statement is `this._isClosed = true`. -/
def ServerWebSocket.handleCloseEvent (s : WsState) : WsState :=
  { s with isClosed := true }

/-- An operation that can reach a `ServerWebSocket` after construction. -/
inductive WsOp where
  | send (d : List Nat) : WsOp
  | close : WsOp
  | closeEvent : WsOp
  deriving DecidableEq, Repr

/-- Apply one operation. -/
def wsApply (s : WsState) : WsOp → WsState
  | .send d => ServerWebSocket.send d s
  | .close => ServerWebSocket.close s
  | .closeEvent => ServerWebSocket.handleCloseEvent s

/-- Run a sequence of operations. -/
def wsRun (s : WsState) (ops : List WsOp) : WsState := ops.foldl wsApply s

/-- Once `_isClosed` is set it stays set, and no later operation — in
particular no `send` — ever hands another chunk to the underlying
WebSocket. -/
lemma wsRun_closed_writes_nothing (ops : List WsOp) :
    ∀ s : WsState, s.isClosed = true →
      (wsRun s ops).isClosed = true ∧ (wsRun s ops).wsSent = s.wsSent := by
  induction ops with
  | nil => intro s hs; exact ⟨hs, rfl⟩
  | cons op rest ih =>
    intro s hs
    have hstep : (wsApply s op).isClosed = true ∧ (wsApply s op).wsSent = s.wsSent := by
      cases op with
      | send d => simp [wsApply, ServerWebSocket.send, hs]
      | close => simp [wsApply, ServerWebSocket.close, hs]
      | closeEvent => simp [wsApply, ServerWebSocket.handleCloseEvent, hs]
    obtain ⟨h1, h2⟩ := ih (wsApply s op) hstep.1
    exact ⟨h1, by rw [wsRun] at *; simpa [hstep.2] using h2⟩

/-- C9: after a `ServerWebSocket` has been closed — by its own `close()`
or by the underlying WebSocket's `close` event — every subsequent
`send` (in any interleaving of further operations) is a silent no-op:
it returns (the model is a total function, so nothing is thrown) and the
sequence of chunks written to the underlying WebSocket never changes
again. -/
theorem serverWebSocket_send_after_close_noop (s : WsState)
    (ops : List WsOp) :
    (wsRun (ServerWebSocket.close s) ops).wsSent = s.wsSent ∧
    (wsRun (ServerWebSocket.handleCloseEvent s) ops).wsSent = s.wsSent := by
  constructor
  · exact (wsRun_closed_writes_nothing ops (ServerWebSocket.close s) rfl).2
  · exact (wsRun_closed_writes_nothing ops (ServerWebSocket.handleCloseEvent s) rfl).2

/-! ## `ServerSocket` (C10)

`ServerSocket.onEnd` ignores its listener argument entirely and returns
`Disposable.None`; nothing in the class ever invokes an end listener.
`drain()` returns `Promise.resolve()` unconditionally. The model keeps a
registry of the listeners the class does wire (data and close, both
forwarded from the wrapped `ServerWebSocket`) and counts invocations per
kind. -/

/-- Events the wrapped transport can emit at a `ServerSocket`. -/
inductive SockEvent where
  | dataArrived (b : List Nat) : SockEvent
  | closed : SockEvent
  deriving DecidableEq, Repr

/-- Invocation counters for the three listener kinds a consumer can try
to register on a `ServerSocket`. -/
structure SrvSockState where
  dataCalls : Nat
  closeCalls : Nat
  endCalls : Nat
  deriving DecidableEq, Repr

/-- A subscription handle; `inert` models `Disposable.None`. -/
inductive Subscription where
  | inert : Subscription
  | live (id : Nat) : Subscription
  deriving DecidableEq, Repr

/-- Method `ServerSocket.onEnd(listener)`: the listener is dropped and
`Disposable.None` is returned; the socket state is untouched. -/
def ServerSocket.onEnd (s : SrvSockState) : SrvSockState × Subscription :=
  (s, Subscription.inert)

/-- Event dispatch of `ServerSocket`: `onData` listeners run on incoming
data frames, `onClose` listeners on the close event; no event path
invokes an end listener. -/
def ServerSocket.dispatch (s : SrvSockState) : SockEvent → SrvSockState
  | .dataArrived _ => { s with dataCalls := s.dataCalls + 1 }
  | .closed => { s with closeCalls := s.closeCalls + 1 }

/-- Run a sequence of transport events through the dispatch. -/
def ServerSocket.run (s : SrvSockState) (evs : List SockEvent) : SrvSockState :=
  evs.foldl ServerSocket.dispatch s

/-- Resolution state of the promise `drain()` returns. -/
inductive DrainResult where
  /-- an already-resolved promise (`Promise.resolve()`). -/
  | resolvedImmediately : DrainResult
  /-- a promise still waiting on pending writes. -/
  | waiting (pendingWrites : Nat) : DrainResult
  deriving DecidableEq, Repr

/-- Method `ServerSocket.drain()`: returns `Promise.resolve()` no matter
how many writes are pending. -/
def ServerSocket.drain (_pendingWrites : Nat) : DrainResult :=
  DrainResult.resolvedImmediately

/-- C10: `onEnd` returns an inert subscription (`Disposable.None`)
without touching the socket, no sequence of transport events ever
invokes an end listener (a half-close is never signalled to the protocol
layer), and `drain()` resolves immediately regardless of the number of
pending writes. -/
theorem serverSocket_onEnd_inert_and_drain_immediate
    (s : SrvSockState) (evs : List SockEvent) (pendingWrites : Nat) :
    ServerSocket.onEnd s = (s, Subscription.inert) ∧
    (ServerSocket.run s evs).endCalls = s.endCalls ∧
    ServerSocket.drain pendingWrites = DrainResult.resolvedImmediately := by
  refine ⟨rfl, ?_, rfl⟩
  induction evs generalizing s with
  | nil => rfl
  | cons ev rest ih =>
    have hstep : (ServerSocket.dispatch s ev).endCalls = s.endCalls := by
      cases ev <;> rfl
    simpa [ServerSocket.run, hstep] using ih (ServerSocket.dispatch s ev)

/-! ## Two-phase socket swap of the persistent protocol (C1)

The sessions call `beginAcceptReconnection` / `endAcceptReconnection`
on the retained protocol (see `ManagementConnection.doReconnect` and
`ExtensionHostConnection.doReconnect`), but the implementation of those
methods lives in `vs/base/parts/ipc/common/ipc.net`, which is not among
the extracted sources, so the delivery semantics below is modelled from
the spec (§4.1). -/

/-- Modelled from the spec: the receive-side state of a
`PersistentProtocol` — the implementation in
`vs/base/parts/ipc/common/ipc.net` is not among the extracted sources.
`delivered` is the ordered byte sequence handed to the application,
`incoming` the bytes received but not yet delivered (spec §3
`incomingBuffer`), `paused` the spec's `isPaused` flag, and `sock` the
currently attached wire socket adapter. -/
structure PProto where
  delivered : List Nat
  incoming : List Nat
  paused : Bool
  sock : Nat
  deriving DecidableEq, Repr

/-- A freshly attached protocol on socket `s0`: nothing delivered,
nothing buffered, delivery running. -/
def PProto.fresh (s0 : Nat) : PProto :=
  { delivered := [], incoming := [], paused := false, sock := s0 }

/-- Modelled from the spec: bytes arriving from the attached socket.
When paused they are buffered rather than delivered (spec §3
`isPaused`); otherwise any buffered bytes flush first, preserving
order. -/
def PProto.receive (p : PProto) (bs : List Nat) : PProto :=
  if p.paused then { p with incoming := p.incoming ++ bs }
  else { p with delivered := p.delivered ++ p.incoming ++ bs, incoming := [] }

/-- Modelled from the spec: `beginAcceptReconnection(newSocket,
bufferedBytes)` — phase 1 attaches the new socket and replays the bytes
the new socket's handshake layer had already consumed into the incoming
stream; between the two phases the protocol must not deliver any new
data, so delivery is suspended. -/
def PProto.beginAcceptReconnection (p : PProto) (newSock : Nat)
    (bufferedBytes : List Nat) : PProto :=
  { p with sock := newSock, paused := true,
           incoming := p.incoming ++ bufferedBytes }

/-- Modelled from the spec: `endAcceptReconnection()` — phase 2
finalizes the swap and resumes delivery, flushing everything buffered in
order. -/
def PProto.endAcceptReconnection (p : PProto) : PProto :=
  { p with paused := false, delivered := p.delivered ++ p.incoming,
           incoming := [] }

/-- Feed a sequence of data chunks into the protocol, in order. -/
def PProto.receiveAll (p : PProto) (chunks : List (List Nat)) : PProto :=
  chunks.foldl PProto.receive p

/-- Concatenation of a chunk sequence into one byte sequence. -/
def chunksFlat : List (List Nat) → List Nat
  | [] => []
  | c :: cs => c ++ chunksFlat cs

lemma chunksFlat_append (xs ys : List (List Nat)) :
    chunksFlat (xs ++ ys) = chunksFlat xs ++ chunksFlat ys := by
  induction xs with
  | nil => rfl
  | cons c cs ih => simp [chunksFlat, ih]

/-- Running receives on an unpaused, fully flushed protocol delivers the
chunks in order and leaves nothing buffered. -/
lemma receiveAll_unpaused (chunks : List (List Nat)) :
    ∀ p : PProto, p.paused = false → p.incoming = [] →
      PProto.receiveAll p chunks
        = { p with delivered := p.delivered ++ chunksFlat chunks } := by
  induction chunks with
  | nil => intro p hp hi; simp [PProto.receiveAll, chunksFlat]
  | cons c cs ih =>
    intro p hp hi
    have hstep : PProto.receive p c
        = { p with delivered := p.delivered ++ c, incoming := [] } := by
      simp [PProto.receive, hp, hi]
    have h2 := ih { p with delivered := p.delivered ++ c, incoming := [] }
      (by simp [hp]) (by simp)
    simp only [PProto.receiveAll, List.foldl_cons] at h2 ⊢
    rw [hstep, h2]
    simp [chunksFlat, hi]

/-- Running receives on a paused protocol delivers nothing: all bytes
are buffered behind the existing backlog, in order. -/
lemma receiveAll_paused (chunks : List (List Nat)) :
    ∀ p : PProto, p.paused = true →
      PProto.receiveAll p chunks
        = { p with incoming := p.incoming ++ chunksFlat chunks } := by
  induction chunks with
  | nil => intro p hp; simp [PProto.receiveAll, chunksFlat]
  | cons c cs ih =>
    intro p hp
    have hstep : PProto.receive p c = { p with incoming := p.incoming ++ c } := by
      simp [PProto.receive, hp]
    have := ih { p with incoming := p.incoming ++ c } (by simp [hp])
    simp [PProto.receiveAll, hstep] at this ⊢
    simp [this, chunksFlat]

/-- C1: for every sequence `pre` of payload chunks delivered before a
socket swap, every byte sequence `buffered` undelivered at swap time,
every sequence `mid` of chunks arriving between the two reconnection
phases and every sequence `post` arriving afterwards, the two-phase
reconnection (`beginAcceptReconnection` with the new socket and the
buffered bytes, then `endAcceptReconnection`) delivers to the
application exactly the byte sequence of the swap-free execution in
which `pre`, `buffered`, `mid` and `post` arrive on the original socket;
and no data is delivered between the two phases — after phase 1, any
sequence `mid1` of arriving chunks leaves the delivered sequence exactly
as it was at the start of phase 1. -/
theorem two_phase_reconnection_no_data_loss
    (s0 newSock : Nat) (pre mid post : List (List Nat))
    (buffered : List Nat) :
    (PProto.receiveAll
        (PProto.endAcceptReconnection
          (PProto.receiveAll
            (PProto.beginAcceptReconnection
              (PProto.receiveAll (PProto.fresh s0) pre) newSock buffered)
            mid))
        post).delivered
      = (PProto.receiveAll (PProto.fresh s0)
          (pre ++ [buffered] ++ mid ++ post)).delivered ∧
    (∀ mid1 : List (List Nat),
      (PProto.receiveAll
          (PProto.beginAcceptReconnection
            (PProto.receiveAll (PProto.fresh s0) pre) newSock buffered)
          mid1).delivered
        = (PProto.receiveAll (PProto.fresh s0) pre).delivered) := by
  have hpre := receiveAll_unpaused pre (PProto.fresh s0) rfl rfl
  constructor
  · rw [hpre]
    rw [receiveAll_paused mid _ (by simp [PProto.beginAcceptReconnection])]
    rw [receiveAll_unpaused post _ (by simp [PProto.endAcceptReconnection])
        (by simp [PProto.endAcceptReconnection])]
    rw [receiveAll_unpaused (pre ++ [buffered] ++ mid ++ post)
        (PProto.fresh s0) rfl rfl]
    simp [PProto.beginAcceptReconnection, PProto.endAcceptReconnection,
      PProto.fresh, chunksFlat_append, chunksFlat]
  · intro mid1
    rw [hpre]
    rw [receiveAll_paused mid1 _ (by simp [PProto.beginAcceptReconnection])]
    simp [PProto.beginAcceptReconnection]

end VscodeServer
